import Mathlib

/-!
Shallow embedding of the FastDo chat widget's outbound request pipeline:
the request executor (`ChatController.processResponse` / `sendChatMessage`),
the retry orchestrator (`WebhookController.sendWebhookMessage`), and the
file-rotating logger (`utils/logger`).  Every definition is translated from
the TypeScript source; wall-clock timestamps, the opaque `details` payloads
and the `devInfo` diagnostic bundle are not modelled because no claim
depends on their contents.
-/

namespace FastDo

/-- Closed error taxonomy (`ChatController.ErrorType`). -/
inductive ErrorType where
  | NETWORK_ERROR
  | SERVER_ERROR
  | TIMEOUT_ERROR
  | AUTH_ERROR
  | RATE_LIMIT_ERROR
  | VALIDATION_ERROR
  | UNKNOWN_ERROR
  deriving DecidableEq, Repr

/-- JSON values as produced by `JSON.parse` (numbers as integers; floating
point values are irrelevant to every claim). -/
inductive Json where
  | null
  | bool (b : Bool)
  | num (n : Int)
  | str (s : String)
  | arr (elems : List Json)
  | obj (fields : List (String × Json))
  deriving Repr

/-- JavaScript truthiness of a JSON value. -/
def Json.jsTruthy : Json → Bool
  | .null => false
  | .bool b => b
  | .num n => n != 0
  | .str s => s != ""
  | .arr _ => true
  | .obj _ => true

/-- Truthiness of an optional object field (`undefined` is falsy). -/
def jsTruthyOpt : Option Json → Bool
  | none => false
  | some j => j.jsTruthy

/-- Number of keys `Object.keys` reports for a JSON value (strings
enumerate their character indices, primitives have no keys). -/
def Json.jsKeysCount : Json → Nat
  | .obj fields => fields.length
  | .arr elems => elems.length
  | .str s => s.length
  | _ => 0

/-- `ChatController.ErrorResponse`.  The `timestamp` and `details` fields of
the source are omitted: no claim depends on them. -/
structure ErrorResponse where
  type : ErrorType
  message : String
  devMessage : Option String := none
  status : Option Nat := none
  deriving DecidableEq, Repr

/-- `ChatController.ControllerResponse` (the outcome envelope).  The
`devInfo` diagnostic bundle is omitted: no claim depends on it. -/
structure ControllerResponse where
  success : Bool
  data : Option Json := none
  error : Option ErrorResponse := none
  deriving Repr

/-- `USER_FRIENDLY_MESSAGES` from `ChatController.ts`. -/
def userFriendlyMessage : ErrorType → String
  | .NETWORK_ERROR => "Không thể kết nối tới máy chủ. Vui lòng kiểm tra kết nối internet của bạn và thử lại sau."
  | .SERVER_ERROR => "Hệ thống đang được bảo trì. Vui lòng thử lại sau ít phút."
  | .TIMEOUT_ERROR => "Máy chủ đang phản hồi chậm. Vui lòng thử lại sau."
  | .AUTH_ERROR => "Phiên làm việc của bạn đã hết hạn. Vui lòng làm mới trang và đăng nhập lại."
  | .RATE_LIMIT_ERROR => "Bạn đã gửi quá nhiều yêu cầu. Vui lòng đợi một lát rồi thử lại."
  | .VALIDATION_ERROR => "Thông tin bạn nhập không hợp lệ. Vui lòng kiểm tra lại."
  | .UNKNOWN_ERROR => "Đã xảy ra lỗi không xác định. Vui lòng thử lại sau."

/-- `USER_RETRY_MESSAGES` from `WebhookController.ts`. -/
def userRetryMessage : ErrorType → String
  | .NETWORK_ERROR => "Kết nối mạng không ổn định. Hệ thống đang thử kết nối lại..."
  | .SERVER_ERROR => "Máy chủ đang tạm thời quá tải. Hệ thống đang thử kết nối lại..."
  | .TIMEOUT_ERROR => "Máy chủ phản hồi chậm. Hệ thống đang thử kết nối lại..."
  | .AUTH_ERROR => "Xảy ra lỗi xác thực. Hệ thống đang thử lại..."
  | .RATE_LIMIT_ERROR => "Đã vượt quá giới hạn yêu cầu. Hệ thống đang thử lại..."
  | .VALIDATION_ERROR => "Thông tin không hợp lệ. Hệ thống đang thử lại..."
  | .UNKNOWN_ERROR => "Đang thử kết nối lại với máy chủ..."

/-- `API_CONFIG.MAX_RETRIES` (`config/api.config.ts`). -/
def API_MAX_RETRIES : Nat := 2

/-- `API_CONFIG.RETRY_DELAY` in milliseconds (`config/api.config.ts`). -/
def API_RETRY_DELAY : Nat := 1000

/-- `API_CONFIG.REQUEST_TIMEOUT` in milliseconds (`config/api.config.ts`). -/
def API_REQUEST_TIMEOUT : Nat := 30000

/-- Outcome of reading the HTTP response body (`response.text()`): the text,
or a rejection — either the armed timeout's AbortError firing mid-read or
another read failure. -/
inductive BodyOutcome where
  | text (s : String)
  | abortedDuringRead
  | readFailed (msg : String)
  deriving Repr

/-- Behaviour of one `fetch` call: rejection with an AbortError (the armed
timeout fired during the fetch), rejection with a generic transport `Error`
(DNS failure, connection refused, ...), or an HTTP response with a status
line and a body-read outcome. -/
inductive FetchOutcome where
  | abortError
  | rejected (msg : String)
  | response (status : Nat) (body : BodyOutcome)
  deriving Repr

/-- A JavaScript value caught by a `catch` block in the pipeline: a thrown
`ErrorResponse` object (which has a `.type` property and no `.name`), an
AbortError `DOMException` (whose `.name` is `AbortError`), or a generic
`Error`. -/
inductive Caught where
  | err (e : ErrorResponse)
  | domAbort
  | jsError (msg : String)
  deriving Repr

/-- The `.message` property of a caught value. -/
def Caught.jsMessage : Caught → String
  | .err e => e.message
  | .domAbort => "The operation was aborted."
  | .jsError m => m

/-- JavaScript `String.prototype.trim`, modelled on the character list
(strip leading and trailing whitespace). -/
def jsTrim (s : String) : String :=
  String.mk ((s.data.dropWhile Char.isWhitespace).reverse.dropWhile Char.isWhitespace).reverse

/-- JavaScript `a || b` on an optional string (empty string is falsy). -/
def jsOrElse (a : Option String) (b : String) : String :=
  match a with
  | some s => if s = "" then b else s
  | none => b

/-- `Response.ok`: status in the 2xx range. -/
def responseOk (status : Nat) : Bool :=
  decide (200 ≤ status ∧ status ≤ 299)

/-- The status-classification chain of `processResponse` (ChatController.ts
lines 55-139): the `ErrorResponse` built and thrown for a non-ok status. -/
def classifyStatus (status : Nat) : ErrorResponse :=
  if status = 401 ∨ status = 403 then
    { type := .AUTH_ERROR, message := userFriendlyMessage .AUTH_ERROR,
      devMessage := some ("Authentication error: HTTP " ++ toString status),
      status := some status }
  else if status = 429 then
    { type := .RATE_LIMIT_ERROR, message := userFriendlyMessage .RATE_LIMIT_ERROR,
      devMessage := some ("Rate limit exceeded: HTTP " ++ toString status),
      status := some status }
  else if 500 ≤ status then
    { type := .SERVER_ERROR, message := userFriendlyMessage .SERVER_ERROR,
      devMessage := some ("Server error: HTTP " ++ toString status),
      status := some status }
  else if status = 400 then
    { type := .VALIDATION_ERROR, message := userFriendlyMessage .VALIDATION_ERROR,
      devMessage := some ("Invalid request data: HTTP " ++ toString status),
      status := some status }
  else
    { type := .UNKNOWN_ERROR, message := userFriendlyMessage .UNKNOWN_ERROR,
      devMessage := some ("HTTP error! status: " ++ toString status),
      status := some status }

/-- The `ErrorResponse` built by the catch block at ChatController.ts line
203 when a non-`ErrorResponse` value (e.g. the AbortError raised while
reading the body) escapes the body-processing `try`. -/
def processCatchError : ErrorResponse :=
  { type := .UNKNOWN_ERROR,
    message := "Máy chủ không phản hồi đúng định dạng. Vui lòng thử lại sau.",
    devMessage := some "Failed to process API response" }

/-- `processResponse` (ChatController.ts lines 54-224), parameterised by the
behaviour of the external `JSON.parse` (`parse s = none` models a parse
exception).  Throwing is modelled with `Except.error`; every value it throws
is an `ErrorResponse`.  The inner `throw` at line 194 is dead code (its
guard at line 187 is always true at that point) and therefore not
reachable in this translation either. -/
def processResponse (parse : String → Option Json) (status : Nat)
    (body : BodyOutcome) : Except ErrorResponse Json :=
  if responseOk status = false then
    .error (classifyStatus status)
  else
    match body with
    | .text s =>
      if s = "" ∨ jsTrim s = "" then
        .ok (.obj [("text", .str "Máy chủ không trả về nội dung. Vui lòng thử lại sau."),
                   ("raw", .obj [("emptyResponse", .bool true), ("status", .num status)])])
      else
        match parse s with
        | some j => .ok j
        | none => .ok (.obj [("text", .str s), ("raw", .str s)])
    | .abortedDuringRead => .error processCatchError
    | .readFailed _ => .error processCatchError

/-- A failure envelope: `success: false` with the given error. -/
def failureEnvelope (e : ErrorResponse) : ControllerResponse :=
  { success := false, data := none, error := some e }

/-- A success envelope: `success: true` with the given payload. -/
def successEnvelope (j : Json) : ControllerResponse :=
  { success := true, data := some j, error := none }

/-- The result of one `fetch` invocation as seen by the `await` at
ChatController.ts line 334: a rejection is a thrown value. -/
def fetchResult : FetchOutcome → Except Caught (Nat × BodyOutcome)
  | .abortError => .error .domAbort
  | .rejected msg => .error (.jsError msg)
  | .response status body => .ok (status, body)

/-- The body of the inner `try` of `sendChatMessage` (ChatController.ts
lines 332-373): fetch, process the response, and build the success
envelope.  Any rejection propagates as a thrown value. -/
def attemptFetch (parse : String → Option Json) (outcome : FetchOutcome) :
    Except Caught ControllerResponse :=
  match fetchResult outcome with
  | .error c => .error c
  | .ok (status, body) =>
    match processResponse parse status body with
    | .error e => .error (.err e)
    | .ok j => .ok (successEnvelope j)

/-- The `catch` at ChatController.ts lines 374-451: an AbortError becomes a
TIMEOUT failure; otherwise only an explicit SERVER classification is
preserved and every other caught value becomes a NETWORK failure.  Note
that none of the envelopes built here carries a top-level `status`. -/
def handleAttempt (c : Caught) (timeout : Nat) : ControllerResponse :=
  match c with
  | .domAbort =>
    failureEnvelope
      { type := .TIMEOUT_ERROR, message := userFriendlyMessage .TIMEOUT_ERROR,
        devMessage := some ("Request timed out after " ++ toString timeout ++ "ms") }
  | .err e =>
    if e.type = .SERVER_ERROR then
      failureEnvelope
        { type := .SERVER_ERROR, message := userFriendlyMessage .SERVER_ERROR,
          devMessage := some (jsOrElse e.devMessage ("Server error: " ++ e.message)) }
    else
      failureEnvelope
        { type := .NETWORK_ERROR, message := userFriendlyMessage .NETWORK_ERROR,
          devMessage := some ("Network error: " ++ e.message) }
  | .jsError m =>
    failureEnvelope
      { type := .NETWORK_ERROR, message := userFriendlyMessage .NETWORK_ERROR,
        devMessage := some ("Network error: " ++ m) }

/-- The VALIDATION envelope for an empty message (ChatController.ts
lines 261-285). -/
def emptyMessageError : ErrorResponse :=
  { type := .VALIDATION_ERROR, message := "Vui lòng nhập nội dung tin nhắn.",
    devMessage := some "Empty message provided by user" }

/-- The VALIDATION envelope for a missing session id (ChatController.ts
lines 287-310). -/
def missingSessionError : ErrorResponse :=
  { type := .VALIDATION_ERROR, message := userFriendlyMessage .VALIDATION_ERROR,
    devMessage := some "Session ID is required but was not provided" }

/-- `sendChatMessage` (ChatController.ts lines 234-485).  The second
component counts how many times `fetch` was invoked.  The `url` argument
only feeds log strings.  The outer `catch` at line 452 is unreachable: every
value thrown inside the function is already handled by the inner `catch`
(`handleAttempt`), which the totality of this translation makes explicit. -/
def sendChatMessage (parse : String → Option Json) (outcome : FetchOutcome)
    (url prompt sessionId : String) (timeout : Nat) : ControllerResponse × Nat :=
  let _ := url
  if jsTrim prompt = "" then
    (failureEnvelope emptyMessageError, 0)
  else if sessionId = "" then
    (failureEnvelope missingSessionError, 0)
  else
    match attemptFetch parse outcome with
    | .ok r => (r, 1)
    | .error c => (handleAttempt c timeout, 1)

/-- `RetryOptions` of `WebhookController.ts` with the defaults destructured
at lines 157-166 (`isDevMode` only toggles the unmodelled diagnostic
bundle). -/
structure RetryOptions where
  maxRetries : Nat := API_MAX_RETRIES
  retryDelay : Nat := API_RETRY_DELAY
  retryableErrors : List ErrorType := [.NETWORK_ERROR, .SERVER_ERROR, .TIMEOUT_ERROR]

/-- The default `RetryOptions` (an empty options object). -/
def defaultRetryOptions : RetryOptions := {}

/-- The UNKNOWN error substituted for a success envelope with a falsy
payload (WebhookController.ts lines 269-274). -/
def emptyDataError : ErrorResponse :=
  { type := .UNKNOWN_ERROR,
    message := "Máy chủ không trả về nội dung. Vui lòng thử lại sau.",
    devMessage := some "Server returned success but no data" }

/-- The empty-payload check of the retry loop (WebhookController.ts lines
251-275): a truthy payload with zero keys is only logged; a falsy payload on
a success envelope flips it to an UNKNOWN failure, leaving `data` in
place. -/
def convertEmptySuccess (r : ControllerResponse) : ControllerResponse :=
  if jsTruthyOpt r.data ∧ (r.data.map Json.jsKeysCount).getD 0 = 0 then
    r
  else if jsTruthyOpt r.data = false ∧ r.success = true then
    { r with success := false, error := some emptyDataError }
  else
    r

/-- The message rewrite applied while a retry is pending (WebhookController.ts
lines 328-330). -/
def retryNotice (e : ErrorResponse) : ErrorResponse :=
  { e with message := userRetryMessage e.type }

/-- The UNKNOWN envelope synthesised by the retry loop's `catch`
(WebhookController.ts lines 336-365). -/
def unexpectedLoopError (c : Caught) : ErrorResponse :=
  { type := .UNKNOWN_ERROR, message := userRetryMessage .UNKNOWN_ERROR,
    devMessage := some ("Unexpected error: " ++ c.jsMessage) }

/-- The retry loop of `sendWebhookMessage` (WebhookController.ts lines
239-390).  `exec n` is the awaited executor call of attempt `n` (a rejected
promise is `Except.error`).  Returns the loop's final response together with
the number of attempts issued and the total milliseconds slept.  `fuel`
starts at `maxRetries + 1 - retries`, which matches the `while (retries <=
maxRetries)` guard because `retries` only advances after a wait, which only
happens while `retries < maxRetries`. -/
def loopGo (exec : Nat → Except Caught ControllerResponse) (opts : RetryOptions) :
    Nat → Nat → Option ControllerResponse → Nat → Nat →
    Option ControllerResponse × Nat × Nat
  | 0, _, last, att, waited => (last, att, waited)
  | fuel + 1, retries, _, att, waited =>
    match exec retries with
    | .ok resp0 =>
      let resp := convertEmptySuccess resp0
      if resp.success then (some resp, att + 1, waited)
      else
        match resp.error with
        | none => (some resp, att + 1, waited)
        | some e =>
          if opts.retryableErrors.contains e.type = false then
            (some resp, att + 1, waited)
          else
            let resp2 := if retries < opts.maxRetries then
                { resp with error := some (retryNotice e) }
              else resp
            if retries ≥ opts.maxRetries then (some resp2, att + 1, waited)
            else
              loopGo exec opts fuel (retries + 1) (some resp2) (att + 1)
                (waited + opts.retryDelay * (retries + 1))
    | .error c =>
      let resp := failureEnvelope (unexpectedLoopError c)
      if retries ≥ opts.maxRetries then (some resp, att + 1, waited)
      else
        loopGo exec opts fuel (retries + 1) (some resp) (att + 1)
          (waited + opts.retryDelay * (retries + 1))

/-- The VALIDATION envelope for an empty prompt (WebhookController.ts lines
185-210). -/
def emptyPromptError : ErrorResponse :=
  { type := .VALIDATION_ERROR, message := "Vui lòng nhập nội dung tin nhắn.",
    devMessage := some "Empty prompt provided" }

/-- The VALIDATION envelope for a missing session id (WebhookController.ts
lines 212-236). -/
def missingSessionIdError : ErrorResponse :=
  { type := .VALIDATION_ERROR,
    message := "Phiên làm việc không hợp lệ. Vui lòng làm mới trang.",
    devMessage := some "Missing sessionId" }

/-- The defensive fallback envelope (WebhookController.ts lines 402-416),
returned when the loop produced no response at all. -/
def fallbackError : ErrorResponse :=
  { type := .UNKNOWN_ERROR,
    message := "Kết nối đến máy chủ không thành công. Vui lòng thử lại sau.",
    devMessage := some "Failed to process webhook request after multiple attempts - no response" }

/-- `sendWebhookMessage` (WebhookController.ts lines 152-431): validation,
then the retry loop, then the last response (or the defensive fallback).
Returns (final envelope, attempts issued, total milliseconds slept). -/
def sendWebhookMessage (exec : Nat → Except Caught ControllerResponse)
    (prompt sessionId : String) (opts : RetryOptions) :
    ControllerResponse × Nat × Nat :=
  if prompt = "" ∨ jsTrim prompt = "" then
    (failureEnvelope emptyPromptError, 0, 0)
  else if sessionId = "" then
    (failureEnvelope missingSessionIdError, 0, 0)
  else
    match loopGo exec opts (opts.maxRetries + 1) 0 none 0 0 with
    | (some r, att, waited) => (r, att, waited)
    | (none, att, waited) => (failureEnvelope fallbackError, att, waited)

/-- Log severity levels (`utils/logger`). -/
inductive LogLevel where
  | INFO
  | WARNING
  | ERROR
  | CRITICAL
  deriving DecidableEq, Repr

/-- `Logger.getLevelValue`: the numeric ordering of severities. -/
def getLevelValue : LogLevel → Nat
  | .INFO => 0
  | .WARNING => 1
  | .ERROR => 2
  | .CRITICAL => 3

/-- A `LogEntry`.  The structured `details`, `context` and `stackTrace`
payloads are reduced to presence flags: only whether extra console lines are
emitted depends on them, never program control flow. -/
structure LogEntry where
  level : LogLevel
  timestamp : String
  message : String
  typeTag : Option String := none
  category : String
  hasDetails : Bool := false
  hasStackTrace : Bool := false
  deriving Repr

/-- `LoggerConfig`.  The `filePrefix` option of the source is spelled
`filePfx` here. -/
structure LoggerConfig where
  enabled : Bool
  logDirectory : String
  filePfx : String
  maxFileSizeBytes : Nat
  maxFiles : Nat
  consoleOutput : Bool
  minLevel : LogLevel
  deriving Repr

/-- `DEFAULT_CONFIG` of `utils/logger` (`logDirectory` is
`path.join(process.cwd(), 'src', 'logs')`, modelled as a plain string —
all claims concern file names inside this single directory). -/
def DEFAULT_CONFIG : LoggerConfig :=
  { enabled := true, logDirectory := "src/logs", filePfx := "app-error",
    maxFileSizeBytes := 5 * 1024 * 1024, maxFiles := 10,
    consoleOutput := true, minLevel := .WARNING }

/-- A file in the log directory: its basename, byte size and creation
time (`fs.statSync(...).birthtime`). -/
structure FileInfo where
  name : String
  size : Nat
  birth : Nat
  deriving DecidableEq, Repr

/-- The log directory's contents. -/
structure FsState where
  files : List FileInfo
  deriving Repr

/-- The mutable state of a `Logger` instance. -/
structure LoggerState where
  config : LoggerConfig
  currentLogFile : String
  deriving Repr

/-- Observable effects of one `Logger.log` call. -/
inductive FsEvent where
  | renamed (src dst : String)
  | deleted (name : String)
  | appended (name : String) (bytes : Nat)
  | consoleErr (line : String)
  | consoleWarn (line : String)
  | consoleLog (line : String)
  deriving DecidableEq, Repr

/-- The date part of a timestamp (`toISOString().split('T')[0]`), with the
clock measured in milliseconds. -/
def datePart (now : Nat) : String :=
  toString (now / 86400000)

/-- `Logger.getLogFilePath`: the current (date-named) log file. -/
def getLogFilePath (cfg : LoggerConfig) (now : Nat) : String :=
  cfg.filePfx ++ "-" ++ datePart now ++ ".log"

/-- The timestamp-suffixed archive name used by `rotateLogsIfNeeded`
(an ISO timestamp with `:` replaced, so it extends the date with a time
component). -/
def archivePath (cfg : LoggerConfig) (now : Nat) : String :=
  cfg.filePfx ++ "-" ++ datePart now ++ "T" ++ toString (now % 86400000) ++ ".log"

/-- JavaScript `String.prototype.startsWith`, modelled on the character
lists. -/
def strStartsWith (pfx s : String) : Bool :=
  pfx.data.isPrefixOf s.data

/-- `fs.statSync(name).size`, or `none` when the file does not exist (the
source catches the exception). -/
def statSize (fs : FsState) (name : String) : Option Nat :=
  (fs.files.find? (fun f => f.name = name)).map (fun f => f.size)

/-- `Logger.shouldRotateFile`: the current file exists and its size exceeds
the configured threshold (a stat failure yields `false`). -/
def shouldRotateFile (st : LoggerState) (fs : FsState) : Bool :=
  match statSize fs st.currentLogFile with
  | some sz => sz > st.config.maxFileSizeBytes
  | none => false

/-- `fs.renameSync src dst` (the destination, if it exists, is replaced). -/
def renameFile (fs : FsState) (src dst : String) : FsState :=
  match fs.files.find? (fun f => f.name = src) with
  | none => fs
  | some fi =>
    { files := fs.files.filter (fun f => f.name ≠ src ∧ f.name ≠ dst)
        ++ [{ fi with name := dst }] }

/-- `fs.appendFileSync`: grow the file, creating it (with the current clock
as its birthtime) when absent. -/
def appendFile (fs : FsState) (name : String) (bytes now : Nat) : FsState :=
  if (fs.files.find? (fun f => f.name = name)).isSome then
    { files := fs.files.map (fun f => if f.name = name then { f with size := f.size + bytes } else f) }
  else
    { files := fs.files ++ [{ name := name, size := bytes, birth := now }] }

/-- Insertion into a list sorted by ascending birthtime (the comparator at
line 116 of the source). -/
def insertByBirth (f : FileInfo) : List FileInfo → List FileInfo
  | [] => [f]
  | g :: gs => if f.birth ≤ g.birth then f :: g :: gs else g :: insertByBirth f gs

/-- Sort files by ascending creation time (`files.sort(byBirthtime)`). -/
def sortByBirth : List FileInfo → List FileInfo
  | [] => []
  | f :: fs => insertByBirth f (sortByBirth fs)

/-- `Logger.cleanupOldLogs` (lines 107-128): among the files whose basename
starts with the configured file name root, delete the oldest ones until at
most `maxFiles` remain. -/
def cleanupOldLogs (cfg : LoggerConfig) (fs : FsState) : FsState × List FsEvent :=
  let matched := fs.files.filter (fun f => strStartsWith cfg.filePfx f.name)
  if matched.length > cfg.maxFiles then
    let sorted := sortByBirth matched
    let toDelete := sorted.take (matched.length - cfg.maxFiles)
    let names := toDelete.map (fun f => f.name)
    ({ files := fs.files.filter (fun f => !(names.contains f.name)) },
      names.map FsEvent.deleted)
  else
    (fs, [])

/-- `Logger.rotateLogsIfNeeded` (lines 86-105): when the current file's size
exceeds the threshold, rename it to a timestamp-suffixed archive, point
`currentLogFile` at a fresh date-named path, and clean up old archives.
The `catch` at line 101 is unreachable here because a positive size check
implies the file exists, so the rename cannot fail. -/
def rotateLogsIfNeeded (st : LoggerState) (fs : FsState) (now : Nat) :
    LoggerState × FsState × List FsEvent :=
  if shouldRotateFile st fs then
    let newFile := archivePath st.config now
    let fs1 := renameFile fs st.currentLogFile newFile
    let st1 := { st with currentLogFile := getLogFilePath st.config now }
    let (fs2, evs) := cleanupOldLogs st1.config fs1
    (st1, fs2, FsEvent.renamed st.currentLogFile newFile :: evs)
  else
    (st, fs, [])

/-- Size in bytes of one serialized entry (`JSON.stringify(entry, null, 2)`
plus the two newline delimiters).  The exact byte count of the JSON
rendering is irrelevant to every claim — only that the file grows — so the
serialization length is approximated by the lengths of the string fields. -/
def entryBytes (e : LogEntry) : Nat :=
  e.timestamp.length + e.message.length + e.category.length + 64 + 2

/-- The console line prefix built at line 146. -/
def consoleLine (e : LogEntry) : String :=
  "[" ++ e.timestamp ++ "] [" ++ (match e.level with
    | .INFO => "INFO" | .WARNING => "WARNING" | .ERROR => "ERROR" | .CRITICAL => "CRITICAL")
    ++ "] [" ++ e.category ++ "] " ++
    (match e.typeTag with
     | some t => t ++ ": " ++ e.message
     | none => e.message)

/-- The console mirroring of one retained entry (lines 145-164): ERROR and
CRITICAL go to the error channel, WARNING to the warning channel, INFO to
the standard channel, with extra lines for details and stack traces. -/
def consoleEvents (e : LogEntry) : List FsEvent :=
  match e.level with
  | .ERROR | .CRITICAL =>
    [FsEvent.consoleErr (consoleLine e)]
      ++ (if e.hasDetails then [FsEvent.consoleErr "Details:"] else [])
      ++ (if e.hasStackTrace then [FsEvent.consoleErr "Stack:"] else [])
  | .WARNING =>
    [FsEvent.consoleWarn (consoleLine e)]
      ++ (if e.hasDetails then [FsEvent.consoleWarn "Details:"] else [])
  | .INFO =>
    [FsEvent.consoleLog (consoleLine e)]
      ++ (if e.hasDetails then [FsEvent.consoleLog "Details:"] else [])

/-- `Logger.log` (lines 130-168): drop the entry when logging is disabled or
its severity is below the configured minimum; otherwise rotate if needed,
append the serialized entry to the current file, and mirror it to the
console when enabled. -/
def Logger.log (st : LoggerState) (fs : FsState) (now : Nat) (e : LogEntry) :
    LoggerState × FsState × List FsEvent :=
  if st.config.enabled = false ∨ getLevelValue e.level < getLevelValue st.config.minLevel then
    (st, fs, [])
  else
    let (st1, fs1, evs1) := rotateLogsIfNeeded st fs now
    let bytes := entryBytes e
    let fs2 := appendFile fs1 st1.currentLogFile bytes now
    let evs2 := [FsEvent.appended st1.currentLogFile bytes]
    let evs3 := if st.config.consoleOutput then consoleEvents e else []
    (st1, fs2, evs1 ++ evs2 ++ evs3)

/-- `Logger.info` (lines 170-178): the convenience wrapper used for the
call-start and response-status records of the executor and orchestrator. -/
def Logger.info (st : LoggerState) (fs : FsState) (now : Nat)
    (message category : String) : LoggerState × FsState × List FsEvent :=
  Logger.log st fs now
    { level := .INFO, timestamp := toString now, message := message, category := category }

/-- The `Logger` constructor with no custom configuration (the module-level
singleton `new Logger()`); `ensureLogDirectory` only touches the directory
itself, which is not part of the model. -/
def Logger.new (now : Nat) : LoggerState :=
  { config := DEFAULT_CONFIG, currentLogFile := getLogFilePath DEFAULT_CONFIG now }

/-- Number of files in the directory whose basename starts with the
configured file name root. -/
def prefixFileCount (cfg : LoggerConfig) (fs : FsState) : Nat :=
  (fs.files.filter (fun f => strStartsWith cfg.filePfx f.name)).length

/-!  Theorems settling the specification claims. -/

/-- The status-classification table as the specification states it
(section 4.1 / section 8): 401, 403 → AUTH; 429 → RATE_LIMIT; at least
500 → SERVER; 400 → VALIDATION; every other non-2xx status → UNKNOWN.
Written from the spec's words, to be compared with `classifyStatus`. -/
def specStatusKind (s : Nat) : ErrorType :=
  if s = 401 ∨ s = 403 then .AUTH_ERROR
  else if s = 429 then .RATE_LIMIT_ERROR
  else if 500 ≤ s then .SERVER_ERROR
  else if s = 400 then .VALIDATION_ERROR
  else .UNKNOWN_ERROR

/-- A `JSON.parse` behaviour that fails on every input. -/
def parseNone : String → Option Json := fun _ => none

theorem classifyStatus_eq_spec (s : Nat) :
    (classifyStatus s).type = specStatusKind s := by
  unfold classifyStatus specStatusKind
  split_ifs <;> rfl

theorem classifyStatus_status (s : Nat) :
    (classifyStatus s).status = some s := by
  unfold classifyStatus
  split_ifs <;> rfl

theorem classifyStatus_server_iff (s : Nat) :
    ((classifyStatus s).type = .SERVER_ERROR) ↔ 500 ≤ s := by
  unfold classifyStatus
  split_ifs with h1 h2 h3 h4 <;> simp <;> omega

/-- Claim C1 counterexample: a mocked HTTP 401 response makes
`sendChatMessage` return a NETWORK failure with no attached status — not
the AUTH failure with status 401 the claim asserts (`processResponse`'s
AUTH classification is thrown, then rewrapped by the catch at line 407). -/
theorem claim_C1_counterexample :
    (sendChatMessage parseNone (.response 401 (.text "x")) "u" "hi" "sess" 30000).1.error.map
        (fun e => (e.type, e.status)) = some (ErrorType.NETWORK_ERROR, none)
    ∧ ErrorType.NETWORK_ERROR ≠ ErrorType.AUTH_ERROR := by
  exact ⟨by decide, by decide⟩

/-- Claim C1 (amended): `processResponse` classifies every non-2xx status
per the claimed table and attaches the literal status to the thrown
`ErrorResponse`; but the envelope `sendChatMessage` returns preserves only
a SERVER classification — every other thrown kind is rewrapped as NETWORK —
and carries no top-level status. -/
theorem claim_C1_status_classification (parse : String → Option Json)
    (status : Nat) (body : BodyOutcome) (url prompt sessionId : String) (timeout : Nat)
    (h2xx : responseOk status = false) (hp : jsTrim prompt ≠ "") (hs : sessionId ≠ "") :
    processResponse parse status body = .error (classifyStatus status)
    ∧ (classifyStatus status).type = specStatusKind status
    ∧ (classifyStatus status).status = some status
    ∧ ∃ e, (sendChatMessage parse (.response status body) url prompt sessionId timeout).1.error
          = some e
        ∧ e.type = (if 500 ≤ status then ErrorType.SERVER_ERROR else ErrorType.NETWORK_ERROR)
        ∧ e.status = none := by
  have hpr : processResponse parse status body = .error (classifyStatus status) := by
    unfold processResponse
    simp [h2xx]
  refine ⟨hpr, classifyStatus_eq_spec status, classifyStatus_status status, ?_⟩
  have hsend : (sendChatMessage parse (.response status body) url prompt sessionId timeout).1
      = handleAttempt (.err (classifyStatus status)) timeout := by
    unfold sendChatMessage attemptFetch fetchResult
    simp [hp, hs, hpr]
  rw [hsend]
  simp only [handleAttempt]
  by_cases h5 : 500 ≤ status
  · rw [if_pos ((classifyStatus_server_iff status).mpr h5), if_pos h5]
    exact ⟨_, rfl, rfl, rfl⟩
  · rw [if_neg (fun hc => h5 ((classifyStatus_server_iff status).mp hc)), if_neg h5]
    exact ⟨_, rfl, rfl, rfl⟩

/-- Claim C1 witness at status 404. -/
theorem claim_C1_witness :
    responseOk 404 = false ∧ jsTrim "hi" ≠ "" ∧ "sess" ≠ ""
    ∧ processResponse parseNone 404 (.text "x") = .error (classifyStatus 404)
    ∧ (classifyStatus 404).type = specStatusKind 404
    ∧ (classifyStatus 404).status = some 404
    ∧ ∃ e, (sendChatMessage parseNone (.response 404 (.text "x")) "u" "hi" "sess" 30000).1.error
          = some e
        ∧ e.type = (if 500 ≤ 404 then ErrorType.SERVER_ERROR else ErrorType.NETWORK_ERROR)
        ∧ e.status = none := by
  refine ⟨by decide, by decide, by decide, ?_⟩
  exact claim_C1_status_classification parseNone 404 (.text "x") "u" "hi" "sess" 30000
    (by decide) (by decide) (by decide)

/-- Claim C6 counterexample: when the armed timeout's AbortError fires while
the body of a 200 response is being read, the returned failure has kind
NETWORK (the catch at ChatController.ts line 203 rewraps the DOMException as
an UNKNOWN `ErrorResponse`, which the outer catch then classifies as
NETWORK), not the TIMEOUT the claim asserts. -/
theorem claim_C6_counterexample :
    (sendChatMessage parseNone (.response 200 .abortedDuringRead) "u" "hi" "sess" 30000).1.error.map
        (fun e => e.type) = some ErrorType.NETWORK_ERROR
    ∧ ErrorType.NETWORK_ERROR ≠ ErrorType.TIMEOUT_ERROR := by
  exact ⟨by decide, by decide⟩

/-- Claim C6 (amended): the timeout signal firing during the `fetch` itself
yields a TIMEOUT failure, but the same signal firing while the response body
is being read yields a NETWORK failure (via the UNKNOWN rewrap in
`processResponse`'s catch). -/
theorem claim_C6_timeout_classification (parse : String → Option Json)
    (url prompt sessionId : String) (timeout status : Nat)
    (hp : jsTrim prompt ≠ "") (hs : sessionId ≠ "") (hok : responseOk status = true) :
    (sendChatMessage parse .abortError url prompt sessionId timeout).1.error.map
        (fun e => e.type) = some ErrorType.TIMEOUT_ERROR
    ∧ (sendChatMessage parse (.response status .abortedDuringRead) url prompt sessionId
          timeout).1.error.map (fun e => e.type) = some ErrorType.NETWORK_ERROR := by
  constructor
  · unfold sendChatMessage attemptFetch fetchResult handleAttempt
    simp [hp, hs, failureEnvelope]
  · have hpr : processResponse parse status .abortedDuringRead = .error processCatchError := by
      unfold processResponse
      simp [hok]
    unfold sendChatMessage attemptFetch fetchResult
    simp only [hp, hs, hpr, if_neg]
    unfold handleAttempt processCatchError
    simp [failureEnvelope]

/-- Claim C6 witness with a 200 response. -/
theorem claim_C6_witness :
    jsTrim "hi" ≠ "" ∧ "sess" ≠ "" ∧ responseOk 200 = true
    ∧ (sendChatMessage parseNone .abortError "u" "hi" "sess" 30000).1.error.map
        (fun e => e.type) = some ErrorType.TIMEOUT_ERROR
    ∧ (sendChatMessage parseNone (.response 200 .abortedDuringRead) "u" "hi" "sess"
          30000).1.error.map (fun e => e.type) = some ErrorType.NETWORK_ERROR := by
  refine ⟨by decide, by decide, by decide, ?_⟩
  exact claim_C6_timeout_classification parseNone "u" "hi" "sess" 30000 200
    (by decide) (by decide) (by decide)

/-- Claim C8: a message that trims to the empty string (or an empty session
id) makes both `sendChatMessage` and `sendWebhookMessage` return a
VALIDATION failure with zero fetch invocations, zero attempts and no
waiting. -/
theorem claim_C8_validation_no_network (parse : String → Option Json)
    (outcome : FetchOutcome) (url prompt sessionId : String) (timeout : Nat)
    (exec : Nat → Except Caught ControllerResponse) (opts : RetryOptions)
    (h : jsTrim prompt = "" ∨ sessionId = "") :
    (sendChatMessage parse outcome url prompt sessionId timeout).1.error.map
        (fun e => e.type) = some ErrorType.VALIDATION_ERROR
    ∧ (sendChatMessage parse outcome url prompt sessionId timeout).2 = 0
    ∧ (sendWebhookMessage exec prompt sessionId opts).1.error.map
        (fun e => e.type) = some ErrorType.VALIDATION_ERROR
    ∧ (sendWebhookMessage exec prompt sessionId opts).2.1 = 0
    ∧ (sendWebhookMessage exec prompt sessionId opts).2.2 = 0 := by
  by_cases hp : jsTrim prompt = ""
  · unfold sendChatMessage sendWebhookMessage
    simp [hp, failureEnvelope, emptyMessageError, emptyPromptError]
  · rcases h with h | h
    · exact absurd h hp
    · have hp0 : prompt ≠ "" := fun h0 => hp (by rw [h0]; rfl)
      unfold sendChatMessage sendWebhookMessage
      simp [hp, hp0, h, failureEnvelope, missingSessionError, missingSessionIdError]

/-- Strong envelope well-formedness: the error is present exactly on
failure and the data payload is present exactly on success. -/
def wfStrong (r : ControllerResponse) : Prop :=
  r.error.isSome = !r.success ∧ r.data.isSome = r.success

/-- Weak envelope well-formedness: the error is present exactly on failure,
and a success always carries a payload (a failure may retain a stale one). -/
def wfWeak (r : ControllerResponse) : Prop :=
  r.error.isSome = !r.success ∧ (r.success = true → r.data.isSome = true)

theorem wfStrong.toWeak {r : ControllerResponse} (h : wfStrong r) : wfWeak r :=
  ⟨h.1, fun hs => by rw [h.2, hs]⟩

theorem failureEnvelope_wfStrong (e : ErrorResponse) : wfStrong (failureEnvelope e) :=
  ⟨rfl, rfl⟩

theorem successEnvelope_wfStrong (j : Json) : wfStrong (successEnvelope j) :=
  ⟨rfl, rfl⟩

theorem handleAttempt_wfStrong (c : Caught) (t : Nat) : wfStrong (handleAttempt c t) := by
  cases c with
  | err e =>
    simp only [handleAttempt]
    split_ifs <;> exact failureEnvelope_wfStrong _
  | domAbort => exact failureEnvelope_wfStrong _
  | jsError m => exact failureEnvelope_wfStrong _

theorem attemptFetch_cases (parse : String → Option Json) (outcome : FetchOutcome) :
    (∃ j, attemptFetch parse outcome = .ok (successEnvelope j))
    ∨ (∃ c, attemptFetch parse outcome = .error c) := by
  unfold attemptFetch
  cases hf : fetchResult outcome with
  | error c => exact Or.inr ⟨c, rfl⟩
  | ok sb =>
    cases hp : processResponse parse sb.1 sb.2 with
    | error e => exact Or.inr ⟨.err e, by simp [hp]⟩
    | ok j => exact Or.inl ⟨j, by simp [hp]⟩

theorem sendChatMessage_wfStrong (parse : String → Option Json) (outcome : FetchOutcome)
    (url prompt sessionId : String) (timeout : Nat) :
    wfStrong (sendChatMessage parse outcome url prompt sessionId timeout).1
    ∧ (sendChatMessage parse outcome url prompt sessionId timeout).2 ≤ 1 := by
  unfold sendChatMessage
  split_ifs
  · exact ⟨failureEnvelope_wfStrong _, Nat.zero_le 1⟩
  · exact ⟨failureEnvelope_wfStrong _, Nat.zero_le 1⟩
  · rcases attemptFetch_cases parse outcome with ⟨j, hj⟩ | ⟨c, hc⟩
    · rw [hj]
      exact ⟨successEnvelope_wfStrong j, Nat.le_refl 1⟩
    · rw [hc]
      exact ⟨handleAttempt_wfStrong c timeout, Nat.le_refl 1⟩

theorem convert_of_failure {r : ControllerResponse} (h : r.success = false) :
    convertEmptySuccess r = r := by
  unfold convertEmptySuccess
  split_ifs with h1 h2
  · rfl
  · rw [h] at h2
    exact absurd h2.2 (by decide)
  · rfl

theorem convert_wfWeak {r : ControllerResponse} (h : wfStrong r) :
    wfWeak (convertEmptySuccess r) := by
  unfold convertEmptySuccess
  split_ifs with h1 h2
  · exact h.toWeak
  · exact ⟨rfl, fun hs => absurd hs Bool.false_ne_true⟩
  · exact h.toWeak

theorem retryNotice_wfWeak {r : ControllerResponse} {e : ErrorResponse}
    (hs : r.success = false) :
    wfWeak { r with error := some (retryNotice e) } := by
  refine ⟨?_, ?_⟩
  · show (some (retryNotice e)).isSome = !r.success
    rw [hs]
    rfl
  · intro hcontra
    have hcc : r.success = true := hcontra
    rw [hs] at hcc
    exact absurd hcc Bool.false_ne_true

theorem loopGo_wfWeak (exec : Nat → Except Caught ControllerResponse) (opts : RetryOptions)
    (hexec : ∀ n r, exec n = .ok r → wfStrong r) :
    ∀ (fuel retries : Nat) (last : Option ControllerResponse) (att w : Nat),
      (∀ r0, last = some r0 → wfWeak r0) →
      ∀ {r : ControllerResponse} {a' w' : Nat},
        loopGo exec opts fuel retries last att w = (some r, a', w') → wfWeak r := by
  intro fuel
  induction fuel with
  | zero =>
    intro retries last att w hlast r a' w' h
    simp only [loopGo] at h
    exact hlast r (congrArg Prod.fst h)
  | succ n ih =>
    intro retries last att w hlast r a' w' h
    simp only [loopGo] at h
    cases hx : exec retries with
    | ok resp0 =>
      rw [hx] at h
      dsimp only at h
      have hwf : wfWeak (convertEmptySuccess resp0) := convert_wfWeak (hexec _ _ hx)
      by_cases hsucc : (convertEmptySuccess resp0).success = true
      · rw [if_pos hsucc] at h
        exact (Option.some.inj (congrArg Prod.fst h)) ▸ hwf
      · rw [if_neg hsucc] at h
        rcases herr : (convertEmptySuccess resp0).error with _ | e
        · rw [herr] at h
          dsimp only at h
          exact (Option.some.inj (congrArg Prod.fst h)) ▸ hwf
        · rw [herr] at h
          dsimp only at h
          by_cases hret : opts.retryableErrors.contains e.type = false
          · rw [if_pos hret] at h
            exact (Option.some.inj (congrArg Prod.fst h)) ▸ hwf
          · rw [if_neg hret] at h
            have hsf : (convertEmptySuccess resp0).success = false := by
              revert hsucc
              cases (convertEmptySuccess resp0).success <;> simp
            have hwf2 : wfWeak { convertEmptySuccess resp0 with error := some (retryNotice e) } :=
              retryNotice_wfWeak hsf
            by_cases hlt : retries < opts.maxRetries
            · rw [if_pos hlt, if_neg (by omega : ¬ retries ≥ opts.maxRetries)] at h
              exact ih (retries + 1) _ (att + 1) (w + opts.retryDelay * (retries + 1))
                (fun r0 h0 => (Option.some.inj h0) ▸ hwf2) h
            · rw [if_neg hlt, if_pos (by omega : retries ≥ opts.maxRetries)] at h
              exact (Option.some.inj (congrArg Prod.fst h)) ▸ hwf
    | error c =>
      rw [hx] at h
      dsimp only at h
      have hwf : wfWeak (failureEnvelope (unexpectedLoopError c)) :=
        (failureEnvelope_wfStrong _).toWeak
      by_cases hmax : retries ≥ opts.maxRetries
      · rw [if_pos hmax] at h
        exact (Option.some.inj (congrArg Prod.fst h)) ▸ hwf
      · rw [if_neg hmax] at h
        exact ih (retries + 1) _ (att + 1) (w + opts.retryDelay * (retries + 1))
          (fun r0 h0 => (Option.some.inj h0) ▸ hwf) h

theorem sendWebhookMessage_wfWeak (exec : Nat → Except Caught ControllerResponse)
    (opts : RetryOptions) (prompt sessionId : String)
    (hexec : ∀ n r, exec n = .ok r → wfStrong r) :
    wfWeak (sendWebhookMessage exec prompt sessionId opts).1 := by
  unfold sendWebhookMessage
  split_ifs
  · exact (failureEnvelope_wfStrong _).toWeak
  · exact (failureEnvelope_wfStrong _).toWeak
  · rcases hl : loopGo exec opts (opts.maxRetries + 1) 0 none 0 0 with ⟨or, att, w⟩
    cases or with
    | none => simp only [hl]; exact (failureEnvelope_wfStrong _).toWeak
    | some r =>
      simp only [hl]
      exact loopGo_wfWeak exec opts hexec _ _ _ _ _ (fun r0 h0 => by cases h0) hl

theorem convert_falsy {r : ControllerResponse} (hsucc : r.success = true)
    (hfalsy : jsTruthyOpt r.data = false) :
    convertEmptySuccess r = { r with success := false, error := some emptyDataError } := by
  unfold convertEmptySuccess
  rw [if_neg (by rw [hfalsy]; rintro ⟨h1, -⟩; exact absurd h1 Bool.false_ne_true),
    if_pos ⟨hfalsy, hsucc⟩]

theorem loopGo_ok_success (exec : Nat → Except Caught ControllerResponse)
    (opts : RetryOptions) (fuel retries : Nat) (last : Option ControllerResponse)
    (att w : Nat) {r : ControllerResponse}
    (hx : exec retries = .ok r) (hsucc : (convertEmptySuccess r).success = true) :
    loopGo exec opts (fuel + 1) retries last att w = (some (convertEmptySuccess r), att + 1, w) := by
  simp only [loopGo]
  rw [hx]
  dsimp only
  rw [if_pos hsucc]

theorem loopGo_ok_nonretryable (exec : Nat → Except Caught ControllerResponse)
    (opts : RetryOptions) (fuel retries : Nat) (last : Option ControllerResponse)
    (att w : Nat) {r : ControllerResponse} {e : ErrorResponse}
    (hx : exec retries = .ok r) (hsf : (convertEmptySuccess r).success = false)
    (he : (convertEmptySuccess r).error = some e)
    (hc : opts.retryableErrors.contains e.type = false) :
    loopGo exec opts (fuel + 1) retries last att w = (some (convertEmptySuccess r), att + 1, w) := by
  simp only [loopGo]
  rw [hx]
  dsimp only
  rw [if_neg (by rw [hsf]; exact Bool.false_ne_true), he]
  dsimp only
  rw [if_pos hc]

theorem loopGo_ok_retryable_step (exec : Nat → Except Caught ControllerResponse)
    (opts : RetryOptions) (fuel retries : Nat) (last : Option ControllerResponse)
    (att w : Nat) {r : ControllerResponse} {e : ErrorResponse}
    (hx : exec retries = .ok r) (hsf : (convertEmptySuccess r).success = false)
    (he : (convertEmptySuccess r).error = some e)
    (hc : opts.retryableErrors.contains e.type = true)
    (hlt : retries < opts.maxRetries) :
    loopGo exec opts (fuel + 1) retries last att w =
      loopGo exec opts fuel (retries + 1)
        (some { convertEmptySuccess r with error := some (retryNotice e) }) (att + 1)
        (w + opts.retryDelay * (retries + 1)) := by
  simp only [loopGo]
  rw [hx]
  dsimp only
  rw [if_neg (by rw [hsf]; exact Bool.false_ne_true), he]
  dsimp only
  rw [if_neg (fun h0 => by rw [hc] at h0; exact Bool.noConfusion h0), if_pos hlt,
    if_neg (by omega : ¬ retries ≥ opts.maxRetries)]

theorem loopGo_ok_retryable_last (exec : Nat → Except Caught ControllerResponse)
    (opts : RetryOptions) (fuel retries : Nat) (last : Option ControllerResponse)
    (att w : Nat) {r : ControllerResponse} {e : ErrorResponse}
    (hx : exec retries = .ok r) (hsf : (convertEmptySuccess r).success = false)
    (he : (convertEmptySuccess r).error = some e)
    (hc : opts.retryableErrors.contains e.type = true)
    (hge : retries ≥ opts.maxRetries) :
    loopGo exec opts (fuel + 1) retries last att w = (some (convertEmptySuccess r), att + 1, w) := by
  simp only [loopGo]
  rw [hx]
  dsimp only
  rw [if_neg (by rw [hsf]; exact Bool.false_ne_true), he]
  dsimp only
  rw [if_neg (fun h0 => by rw [hc] at h0; exact Bool.noConfusion h0),
    if_neg (by omega : ¬ retries < opts.maxRetries), if_pos hge]

/-- Claim C2: with an executor failing with a retryable kind on every
attempt and `maxRetries = 2`, the orchestrator issues exactly 3 attempts
and sleeps `retryDelay * 1 + retryDelay * 2` in total. -/
theorem claim_C2_retry_bound (exec : Nat → Except Caught ControllerResponse)
    (d : Nat) (prompt sessionId : String)
    (hp : jsTrim prompt ≠ "") (hs : sessionId ≠ "")
    (hfail : ∀ n, ∃ r e, exec n = .ok r ∧ r.success = false ∧ r.error = some e
        ∧ defaultRetryOptions.retryableErrors.contains e.type = true) :
    (sendWebhookMessage exec prompt sessionId { maxRetries := 2, retryDelay := d }).2.1 = 3
    ∧ (sendWebhookMessage exec prompt sessionId { maxRetries := 2, retryDelay := d }).2.2
        = d * 1 + d * 2 := by
  obtain ⟨r0, e0, hx0, hrf0, he0, hc0⟩ := hfail 0
  obtain ⟨r1, e1, hx1, hrf1, he1, hc1⟩ := hfail 1
  obtain ⟨r2, e2, hx2, hrf2, he2, hc2⟩ := hfail 2
  have hp0 : ¬(prompt = "" ∨ jsTrim prompt = "") := by
    rintro (h0 | h0)
    · exact hp (by rw [h0]; rfl)
    · exact hp h0
  have hcc0 : ({ maxRetries := 2, retryDelay := d } : RetryOptions).retryableErrors.contains
      e0.type = true := hc0
  have hcc1 : ({ maxRetries := 2, retryDelay := d } : RetryOptions).retryableErrors.contains
      e1.type = true := hc1
  have hcc2 : ({ maxRetries := 2, retryDelay := d } : RetryOptions).retryableErrors.contains
      e2.type = true := hc2
  have key : loopGo exec { maxRetries := 2, retryDelay := d } 3 0 none 0 0
      = (some (convertEmptySuccess r2), 3, 0 + d * (0 + 1) + d * (1 + 1)) := by
    rw [show (3 : Nat) = 2 + 1 from rfl,
      loopGo_ok_retryable_step exec { maxRetries := 2, retryDelay := d } 2 0 none 0 0 hx0
        (by rw [convert_of_failure hrf0]; exact hrf0)
        (by rw [convert_of_failure hrf0]; exact he0) hcc0 (by show (0:Nat) < 2; omega),
      show (2 : Nat) = 1 + 1 from rfl,
      loopGo_ok_retryable_step exec { maxRetries := 2, retryDelay := d } 1 1 _ 1 _ hx1
        (by rw [convert_of_failure hrf1]; exact hrf1)
        (by rw [convert_of_failure hrf1]; exact he1) hcc1 (by show (1:Nat) < 2; omega),
      show (1 : Nat) = 0 + 1 from rfl,
      loopGo_ok_retryable_last exec { maxRetries := 2, retryDelay := d } 0 2 _ 2 _ hx2
        (by rw [convert_of_failure hrf2]; exact hrf2)
        (by rw [convert_of_failure hrf2]; exact he2) hcc2 (by show (2:Nat) ≥ 2; omega)]
  unfold sendWebhookMessage
  rw [if_neg hp0, if_neg hs]
  rw [show ({ maxRetries := 2, retryDelay := d } : RetryOptions).maxRetries + 1 = 3 from rfl, key]
  constructor
  · rfl
  · show 0 + d * (0 + 1) + d * (1 + 1) = d * 1 + d * 2
    ring

/-- Claim C2 witness: a constant NETWORK failure with delay 7 yields 3
attempts and a total wait of 21 ms. -/
theorem claim_C2_witness :
    (sendWebhookMessage (fun _ => .ok (failureEnvelope
        { type := .NETWORK_ERROR, message := "m" })) "hi" "sess"
        { maxRetries := 2, retryDelay := 7 }).2.1 = 3
    ∧ (sendWebhookMessage (fun _ => .ok (failureEnvelope
        { type := .NETWORK_ERROR, message := "m" })) "hi" "sess"
        { maxRetries := 2, retryDelay := 7 }).2.2 = 7 * 1 + 7 * 2 := by
  exact claim_C2_retry_bound _ 7 "hi" "sess" (by decide) (by decide)
    (fun n => ⟨failureEnvelope { type := .NETWORK_ERROR, message := "m" },
      { type := .NETWORK_ERROR, message := "m" }, rfl, rfl, rfl, by decide⟩)

/-- Claim C3: the default retryable set is exactly NETWORK, SERVER and
TIMEOUT, and an executor failure whose kind lies outside the retryable set
is returned unchanged after exactly 1 attempt with no waiting. -/
theorem claim_C3_nonretryable_short_circuit (exec : Nat → Except Caught ControllerResponse)
    (prompt sessionId : String) (r : ControllerResponse) (e : ErrorResponse)
    (hp : jsTrim prompt ≠ "") (hs : sessionId ≠ "")
    (hx : exec 0 = .ok r) (hrf : r.success = false) (he : r.error = some e)
    (hc : defaultRetryOptions.retryableErrors.contains e.type = false) :
    defaultRetryOptions.retryableErrors = [.NETWORK_ERROR, .SERVER_ERROR, .TIMEOUT_ERROR]
    ∧ sendWebhookMessage exec prompt sessionId defaultRetryOptions = (r, 1, 0) := by
  have hp0 : ¬(prompt = "" ∨ jsTrim prompt = "") := by
    rintro (h0 | h0)
    · exact hp (by rw [h0]; rfl)
    · exact hp h0
  refine ⟨rfl, ?_⟩
  unfold sendWebhookMessage
  rw [if_neg hp0, if_neg hs]
  rw [show defaultRetryOptions.maxRetries + 1 = 2 + 1 from rfl,
    loopGo_ok_nonretryable exec _ 2 0 none 0 0 hx
      (by rw [convert_of_failure hrf]; exact hrf)
      (by rw [convert_of_failure hrf]; exact he) hc,
    convert_of_failure hrf]

/-- Claim C3 witness: a constant AUTH failure is returned after one
attempt. -/
theorem claim_C3_witness :
    sendWebhookMessage (fun _ => .ok (failureEnvelope
        { type := .AUTH_ERROR, message := "m" })) "hi" "sess" defaultRetryOptions
      = (failureEnvelope { type := .AUTH_ERROR, message := "m" }, 1, 0) := by
  exact (claim_C3_nonretryable_short_circuit _ "hi" "sess" _
    { type := .AUTH_ERROR, message := "m" } (by decide) (by decide) rfl rfl rfl (by decide)).2

/-- A `JSON.parse` behaviour mapping the body `null` to the JSON null
value. -/
def parseNullOnly : String → Option Json :=
  fun s => if s = "null" then some Json.null else none

/-- An executor built from the real request executor hitting a mocked
endpoint that answers 200 with body `null`. -/
def execNullData : Nat → Except Caught ControllerResponse :=
  fun _ => .ok (sendChatMessage parseNullOnly (.response 200 (.text "null")) "u" "hi" "sess" 30000).1

/-- Claim C4 counterexample: when the upstream answers 200 with the JSON
body `null`, the orchestrator reclassifies the success as an UNKNOWN
failure but leaves the stale `data` field set, so the final envelope
carries both a data payload and an error. -/
theorem claim_C4_counterexample :
    (sendWebhookMessage execNullData "hi" "sess" defaultRetryOptions).1.success = false
    ∧ (sendWebhookMessage execNullData "hi" "sess" defaultRetryOptions).1.error.isSome = true
    ∧ (sendWebhookMessage execNullData "hi" "sess" defaultRetryOptions).1.data.isSome = true := by
  exact ⟨by decide, by decide, by decide⟩

/-- Claim C4 (amended): in every envelope `sendChatMessage` returns, the
error is present iff `success` is false and the data payload is present iff
`success` is true; in every envelope the orchestrator returns over the real
executor, the error is present iff `success` is false and a success always
carries a payload — but a failure produced by the empty-payload
reclassification may retain the stale data field. -/
theorem claim_C4_envelope_invariant (parse : String → Option Json)
    (transport : Nat → FetchOutcome) (outcome : FetchOutcome)
    (url prompt sessionId : String) (timeout : Nat) (opts : RetryOptions) :
    ((sendChatMessage parse outcome url prompt sessionId timeout).1.error.isSome
        = !(sendChatMessage parse outcome url prompt sessionId timeout).1.success)
    ∧ ((sendChatMessage parse outcome url prompt sessionId timeout).1.data.isSome
        = (sendChatMessage parse outcome url prompt sessionId timeout).1.success)
    ∧ ((sendWebhookMessage
          (fun n => .ok (sendChatMessage parse (transport n) url prompt sessionId timeout).1)
          prompt sessionId opts).1.error.isSome
        = !(sendWebhookMessage
          (fun n => .ok (sendChatMessage parse (transport n) url prompt sessionId timeout).1)
          prompt sessionId opts).1.success)
    ∧ ((sendWebhookMessage
          (fun n => .ok (sendChatMessage parse (transport n) url prompt sessionId timeout).1)
          prompt sessionId opts).1.success = true →
        (sendWebhookMessage
          (fun n => .ok (sendChatMessage parse (transport n) url prompt sessionId timeout).1)
          prompt sessionId opts).1.data.isSome = true) := by
  have h1 := (sendChatMessage_wfStrong parse outcome url prompt sessionId timeout).1
  have h2 := sendWebhookMessage_wfWeak
    (fun n => .ok (sendChatMessage parse (transport n) url prompt sessionId timeout).1)
    opts prompt sessionId
    (fun n r hr => by
      cases Except.ok.inj hr
      exact (sendChatMessage_wfStrong parse (transport n) url prompt sessionId timeout).1)
  exact ⟨h1.1, h1.2, h2.1, h2.2⟩

theorem handleAttempt_failure (c : Caught) (t : Nat) :
    (handleAttempt c t).success = false := by
  cases c with
  | err e =>
    simp only [handleAttempt]
    split_ifs <;> rfl
  | domAbort => rfl
  | jsError m => rfl

theorem loopGo_throwing (exec : Nat → Except Caught ControllerResponse) (opts : RetryOptions)
    (hexec : ∀ n, ∃ c, exec n = .error c) :
    ∀ (fuel retries : Nat) (last : Option ControllerResponse) (att w : Nat),
      (∀ r0, last = some r0 → r0.success = false ∧ r0.error.isSome = true) →
      ∀ {r : ControllerResponse} {a' w' : Nat},
        loopGo exec opts fuel retries last att w = (some r, a', w') →
        r.success = false ∧ r.error.isSome = true := by
  intro fuel
  induction fuel with
  | zero =>
    intro retries last att w hlast r a' w' h
    simp only [loopGo] at h
    exact hlast r (congrArg Prod.fst h)
  | succ n ih =>
    intro retries last att w hlast r a' w' h
    obtain ⟨c, hc⟩ := hexec retries
    simp only [loopGo] at h
    rw [hc] at h
    dsimp only at h
    by_cases hmax : retries ≥ opts.maxRetries
    · rw [if_pos hmax] at h
      rw [← Option.some.inj (congrArg Prod.fst h)]
      exact ⟨rfl, rfl⟩
    · rw [if_neg hmax] at h
      exact ih (retries + 1) _ (att + 1) (w + opts.retryDelay * (retries + 1))
        (fun r0 h0 => by rw [← Option.some.inj h0]; exact ⟨rfl, rfl⟩) h

/-- Claim C5: every value a catch block of the executor receives is
converted into a failure envelope (never re-thrown), the executor's result
is always a proper success or error envelope, and the orchestrator returns
an error envelope — not an exception — even when the executor it wraps
rejects on every attempt. -/
theorem claim_C5_total_no_escape (parse : String → Option Json) (outcome : FetchOutcome)
    (url prompt sessionId : String) (t : Nat) (c : Caught)
    (exec : Nat → Except Caught ControllerResponse) (opts : RetryOptions)
    (hthrow : ∀ n, ∃ cn, exec n = .error cn)
    (hp : jsTrim prompt ≠ "") (hs : sessionId ≠ "") :
    ((handleAttempt c t).success = false ∧ (handleAttempt c t).error.isSome = true)
    ∧ ((sendChatMessage parse outcome url prompt sessionId t).1.success = true
        ∨ (sendChatMessage parse outcome url prompt sessionId t).1.error.isSome = true)
    ∧ ((sendWebhookMessage exec prompt sessionId opts).1.success = false
        ∧ (sendWebhookMessage exec prompt sessionId opts).1.error.isSome = true) := by
  have hp0 : ¬(prompt = "" ∨ jsTrim prompt = "") := by
    rintro (h0 | h0)
    · exact hp (by rw [h0]; rfl)
    · exact hp h0
  refine ⟨⟨handleAttempt_failure c t, ?_⟩, ?_, ?_⟩
  · rw [(handleAttempt_wfStrong c t).1, handleAttempt_failure c t]
    rfl
  · have hwf := (sendChatMessage_wfStrong parse outcome url prompt sessionId t).1
    cases hsucc : (sendChatMessage parse outcome url prompt sessionId t).1.success with
    | true => exact Or.inl rfl
    | false =>
      refine Or.inr ?_
      rw [hwf.1, hsucc]
      rfl
  · unfold sendWebhookMessage
    rw [if_neg hp0, if_neg hs]
    rcases hl : loopGo exec opts (opts.maxRetries + 1) 0 none 0 0 with ⟨or, att, w⟩
    cases or with
    | none => simp only [hl]; exact ⟨rfl, rfl⟩
    | some r =>
      simp only [hl]
      exact loopGo_throwing exec opts hthrow _ _ _ _ _ (fun r0 h0 => by cases h0) hl

/-- Claim C5 witness: a transport that rejects every attempt. -/
theorem claim_C5_witness :
    ((handleAttempt .domAbort 30000).success = false
      ∧ (handleAttempt .domAbort 30000).error.isSome = true)
    ∧ ((sendChatMessage parseNone .abortError "u" "hi" "sess" 30000).1.success = true
        ∨ (sendChatMessage parseNone .abortError "u" "hi" "sess" 30000).1.error.isSome = true)
    ∧ ((sendWebhookMessage (fun _ => .error (.jsError "x")) "hi" "sess"
          defaultRetryOptions).1.success = false
        ∧ (sendWebhookMessage (fun _ => .error (.jsError "x")) "hi" "sess"
          defaultRetryOptions).1.error.isSome = true) := by
  exact claim_C5_total_no_escape parseNone .abortError "u" "hi" "sess" 30000 .domAbort
    (fun _ => .error (.jsError "x")) defaultRetryOptions
    (fun n => ⟨.jsError "x", rfl⟩) (by decide) (by decide)

/-- A `JSON.parse` behaviour mapping the body to the empty JSON object. -/
def parseEmptyObj : String → Option Json :=
  fun s => if s = "\x7b\x7d" then some (Json.obj []) else none

/-- An executor built from the real request executor hitting a mocked
endpoint that answers 200 with an empty JSON object body. -/
def execEmptyObj : Nat → Except Caught ControllerResponse :=
  fun _ => .ok (sendChatMessage parseEmptyObj (.response 200 (.text "\x7b\x7d")) "u" "hi" "sess"
    30000).1

/-- Claim C7 counterexample: a 200 response whose payload is the empty JSON
object is a success with an empty payload, yet the orchestrator returns it
as a success — it is only logged, never converted to an UNKNOWN failure. -/
theorem claim_C7_counterexample :
    (sendChatMessage parseEmptyObj (.response 200 (.text "\x7b\x7d")) "u" "hi" "sess"
        30000).1.success = true
    ∧ (sendChatMessage parseEmptyObj (.response 200 (.text "\x7b\x7d")) "u" "hi" "sess"
        30000).1.data.map Json.jsKeysCount = some 0
    ∧ (sendWebhookMessage execEmptyObj "hi" "sess" defaultRetryOptions).1.success = true
    ∧ (sendWebhookMessage execEmptyObj "hi" "sess" defaultRetryOptions).1.error.isSome = false := by
  exact ⟨by decide, by decide, by decide, by decide⟩

/-- The retry option set used to show the empty-payload conversion happens
before retry eligibility: UNKNOWN retryable, one retry. -/
def unknownRetryOptions (d : Nat) : RetryOptions :=
  { maxRetries := 1, retryDelay := d, retryableErrors := [ErrorType.UNKNOWN_ERROR] }

/-- Claim C7 (amended): only a success envelope whose payload is absent or
JavaScript-falsy (null, false, 0, the empty string) is converted into an
UNKNOWN failure before retry eligibility is evaluated; the conversion
precedes eligibility, as an UNKNOWN-retryable option set makes the
converted attempt retry.  A truthy-but-empty payload (such as the empty
object) is not converted. -/
theorem claim_C7_falsy_payload_conversion (exec : Nat → Except Caught ControllerResponse)
    (prompt sessionId : String) (r : ControllerResponse) (d : Nat)
    (hp : jsTrim prompt ≠ "") (hs : sessionId ≠ "")
    (hx : ∀ n, exec n = .ok r) (hsucc : r.success = true)
    (hfalsy : jsTruthyOpt r.data = false) :
    ((convertEmptySuccess r).success = false
      ∧ (convertEmptySuccess r).error = some emptyDataError
      ∧ emptyDataError.type = ErrorType.UNKNOWN_ERROR
      ∧ (convertEmptySuccess r).data = r.data)
    ∧ sendWebhookMessage exec prompt sessionId defaultRetryOptions
        = (convertEmptySuccess r, 1, 0)
    ∧ sendWebhookMessage exec prompt sessionId (unknownRetryOptions d)
        = (convertEmptySuccess r, 2, d * 1) := by
  have hp0 : ¬(prompt = "" ∨ jsTrim prompt = "") := by
    rintro (h0 | h0)
    · exact hp (by rw [h0]; rfl)
    · exact hp h0
  have hcv := convert_falsy hsucc hfalsy
  have hsf : (convertEmptySuccess r).success = false := by rw [hcv]
  have he : (convertEmptySuccess r).error = some emptyDataError := by rw [hcv]
  refine ⟨⟨hsf, he, rfl, by rw [hcv]⟩, ?_, ?_⟩
  · unfold sendWebhookMessage
    rw [if_neg hp0, if_neg hs]
    rw [show defaultRetryOptions.maxRetries + 1 = 2 + 1 from rfl,
      loopGo_ok_nonretryable exec defaultRetryOptions 2 0 none 0 0 (hx 0) hsf he (by decide)]
  · have hcr : (unknownRetryOptions d).retryableErrors.contains emptyDataError.type = true := by
      show ([ErrorType.UNKNOWN_ERROR].contains emptyDataError.type) = true
      decide
    unfold sendWebhookMessage
    rw [if_neg hp0, if_neg hs]
    rw [show (unknownRetryOptions d).maxRetries + 1 = 1 + 1 from rfl,
      loopGo_ok_retryable_step exec (unknownRetryOptions d)
        1 0 none 0 0 (hx 0) hsf he hcr (by show (0:Nat) < 1; omega),
      show (1 : Nat) = 0 + 1 from rfl,
      loopGo_ok_retryable_last exec (unknownRetryOptions d)
        0 (0 + 1) _ (0 + 1) _ (hx (0 + 1)) hsf he hcr (by show (0:Nat) + 1 ≥ 1; omega)]
    norm_num [unknownRetryOptions]

/-- Claim C8 witness: a whitespace-only message. -/
theorem claim_C8_witness :
    jsTrim "  " = "" ∧
    (sendChatMessage parseNone (.response 200 (.text "x")) "u" "  " "sess" 30000).2 = 0
    ∧ (sendWebhookMessage (fun _ => .error .domAbort) "  " "sess" defaultRetryOptions).1.error.map
        (fun e => e.type) = some ErrorType.VALIDATION_ERROR
    ∧ (sendWebhookMessage (fun _ => .error .domAbort) "  " "sess" defaultRetryOptions).2.1 = 0 := by
  have h := claim_C8_validation_no_network parseNone (.response 200 (.text "x")) "u" "  " "sess"
    30000 (fun _ => .error .domAbort) defaultRetryOptions (Or.inl (by decide))
  exact ⟨by decide, h.2.1, h.2.2.1, h.2.2.2.1⟩

/-- Claim C7 witness: a success envelope whose payload is JSON null. -/
theorem claim_C7_witness :
    sendWebhookMessage (fun _ => .ok { success := true, data := some Json.null, error := none })
        "hi" "sess" defaultRetryOptions
      = (convertEmptySuccess { success := true, data := some Json.null, error := none }, 1, 0)
    ∧ sendWebhookMessage (fun _ => .ok { success := true, data := some Json.null, error := none })
        "hi" "sess" (unknownRetryOptions 5)
      = (convertEmptySuccess { success := true, data := some Json.null, error := none }, 2, 5 * 1) := by
  have h := claim_C7_falsy_payload_conversion
    (fun _ => .ok { success := true, data := some Json.null, error := none })
    "hi" "sess" { success := true, data := some Json.null, error := none } 5
    (by decide) (by decide) (fun n => rfl) rfl rfl
  exact ⟨h.2.1, h.2.2⟩

theorem insertByBirth_perm (f : FileInfo) (l : List FileInfo) :
    (insertByBirth f l).Perm (f :: l) := by
  induction l with
  | nil => exact List.Perm.refl _
  | cons g gs ih =>
    unfold insertByBirth
    split_ifs
    · exact List.Perm.refl _
    · exact (ih.cons g).trans (List.Perm.swap f g gs)

theorem sortByBirth_perm (l : List FileInfo) : (sortByBirth l).Perm l := by
  induction l with
  | nil => exact List.Perm.refl _
  | cons f fs ih =>
    exact (insertByBirth_perm f (sortByBirth fs)).trans (ih.cons f)

/-- Deleting the names of the first `k` files of a permutation of
`files.filter P` removes exactly `k` of the files satisfying `P`, when the
matching file names are distinct. -/
theorem count_after_delete (files : List FileInfo) (P : FileInfo → Bool)
    (sorted : List FileInfo) (k : Nat)
    (hperm : sorted.Perm (files.filter P))
    (hnd : ((files.filter P).map (fun f => f.name)).Nodup) :
    ((files.filter (fun f =>
        !(((sorted.take k).map (fun f => f.name)).contains f.name))).filter P).length
      = (files.filter P).length - k := by
  have hcomm : (files.filter (fun f =>
        !(((sorted.take k).map (fun f => f.name)).contains f.name))).filter P
      = (files.filter P).filter (fun f =>
        !(((sorted.take k).map (fun f => f.name)).contains f.name)) := by
    rw [List.filter_filter, List.filter_filter]
    exact List.filter_congr (fun a _ => Bool.and_comm _ _)
  have hpf := (hperm.filter (fun f =>
      !(((sorted.take k).map (fun f => f.name)).contains f.name))).length_eq
  have hsorted_nd : (sorted.map (fun f => f.name)).Nodup :=
    ((hperm.map (fun f => f.name)).nodup_iff).mpr hnd
  have hsplitQ : ∀ (q : FileInfo → Bool),
      sorted.filter q = (sorted.take k).filter q ++ (sorted.drop k).filter q := by
    intro q
    conv_lhs => rw [← List.take_append_drop k sorted]
    rw [List.filter_append]
  have hsplit := hsplitQ (fun f =>
    !(((sorted.take k).map (fun f => f.name)).contains f.name))
  have htake : (sorted.take k).filter (fun f =>
      !(((sorted.take k).map (fun f => f.name)).contains f.name)) = [] := by
    rw [List.filter_eq_nil_iff]
    intro a ha
    have hmem : a.name ∈ (sorted.take k).map (fun f => f.name) :=
      List.mem_map_of_mem _ ha
    rw [List.map_take] at hmem
    simp [hmem]
  have hdisj : List.Disjoint ((sorted.take k).map (fun f => f.name))
      ((sorted.drop k).map (fun f => f.name)) := by
    have h0 := hsorted_nd
    rw [← List.take_append_drop k sorted, List.map_append] at h0
    exact (List.nodup_append.mp h0).2.2
  have hdrop : (sorted.drop k).filter (fun f =>
      !(((sorted.take k).map (fun f => f.name)).contains f.name)) = sorted.drop k := by
    rw [List.filter_eq_self]
    intro a ha
    have hmem : a.name ∈ (sorted.drop k).map (fun f => f.name) :=
      List.mem_map_of_mem _ ha
    have hnin : a.name ∉ (sorted.take k).map (fun f => f.name) :=
      fun hcon => hdisj hcon hmem
    rw [List.map_take] at hnin
    simp [hnin]
  rw [hcomm, ← hpf, hsplit, htake, hdrop, List.nil_append, List.length_drop,
    hperm.length_eq]

/-- After `cleanupOldLogs`, at most `maxFiles` files matching the
configured name root remain (given distinct file names, as a real directory
guarantees). -/
theorem cleanupOldLogs_count (cfg : LoggerConfig) (fs : FsState)
    (hnd : (fs.files.map (fun f => f.name)).Nodup) :
    prefixFileCount cfg (cleanupOldLogs cfg fs).1 ≤ cfg.maxFiles := by
  unfold cleanupOldLogs prefixFileCount
  by_cases hlen :
      (fs.files.filter (fun f => strStartsWith cfg.filePfx f.name)).length > cfg.maxFiles
  · rw [if_pos hlen]
    dsimp only
    have hndP : ((fs.files.filter (fun f => strStartsWith cfg.filePfx f.name)).map
        (fun f => f.name)).Nodup :=
      List.Nodup.sublist ((List.filter_sublist _).map _) hnd
    have hlenS : (sortByBirth (fs.files.filter
        (fun f => strStartsWith cfg.filePfx f.name))).length
        = (fs.files.filter (fun f => strStartsWith cfg.filePfx f.name)).length :=
      (sortByBirth_perm _).length_eq
    rw [count_after_delete fs.files (fun f => strStartsWith cfg.filePfx f.name)
      (sortByBirth (fs.files.filter (fun f => strStartsWith cfg.filePfx f.name)))
      ((fs.files.filter (fun f => strStartsWith cfg.filePfx f.name)).length - cfg.maxFiles)
      (sortByBirth_perm _) hndP]
    omega
  · rw [if_neg hlen]
    dsimp only
    omega

/-- Whether an effect is a file rename. -/
def isRenameEv : FsEvent → Bool
  | .renamed _ _ => true
  | _ => false

theorem consoleEvents_no_rename (e : LogEntry) :
    (consoleEvents e).countP isRenameEv = 0 := by
  unfold consoleEvents
  cases e.level <;> split_ifs <;>
    simp [isRenameEv, List.countP_append, List.countP_cons]

theorem console_if_no_rename (b : Bool) (e : LogEntry) :
    (if b then consoleEvents e else []).countP isRenameEv = 0 := by
  cases b
  · rfl
  · exact consoleEvents_no_rename e

theorem cleanup_no_rename (cfg : LoggerConfig) (fs : FsState) :
    (cleanupOldLogs cfg fs).2.countP isRenameEv = 0 := by
  unfold cleanupOldLogs
  dsimp only
  split_ifs
  · dsimp only
    generalize (((sortByBirth (fs.files.filter (fun f => strStartsWith cfg.filePfx f.name))).take
      ((fs.files.filter (fun f => strStartsWith cfg.filePfx f.name)).length
        - cfg.maxFiles)).map (fun f => f.name)) = names
    induction names with
    | nil => rfl
    | cons a as ih => simp [List.countP_cons, isRenameEv, ih]
  · rfl

theorem renameFile_nodup (fs : FsState) (src dst : String)
    (hnd : (fs.files.map (fun f => f.name)).Nodup) :
    ((renameFile fs src dst).files.map (fun f => f.name)).Nodup := by
  unfold renameFile
  cases hfind : fs.files.find? (fun f => f.name = src) with
  | none => exact hnd
  | some fi =>
    dsimp only
    rw [List.map_append, List.nodup_append]
    refine ⟨List.Nodup.sublist ((List.filter_sublist _).map _) hnd,
      List.nodup_singleton _, ?_⟩
    intro x hx hx2
    obtain ⟨g, hg, rfl⟩ := List.mem_map.mp hx
    have hcond := of_decide_eq_true (List.mem_filter.mp hg).2
    have hx3 : g.name = dst := by
      simpa using hx2
    exact hcond.2 hx3

/-- Claim C9: a retained write performs at most one rotation; the rotation
happens exactly when the current file's size exceeds the threshold before
the write, renaming the current file to the timestamp-suffixed archive and
pointing the logger at a fresh date-named current file; and after the
post-rotation cleanup at most `maxFiles` files matching the configured
name root remain. -/
theorem claim_C9_rotation (st : LoggerState) (fs : FsState) (now : Nat) (e : LogEntry)
    (hen : st.config.enabled = true)
    (hlv : getLevelValue st.config.minLevel ≤ getLevelValue e.level)
    (hnd : (fs.files.map (fun f => f.name)).Nodup) :
    (Logger.log st fs now e).2.2.countP isRenameEv ≤ 1
    ∧ ((Logger.log st fs now e).2.2.countP isRenameEv = 1
        ↔ shouldRotateFile st fs = true)
    ∧ (shouldRotateFile st fs = true →
        FsEvent.renamed st.currentLogFile (archivePath st.config now)
            ∈ (Logger.log st fs now e).2.2
        ∧ (Logger.log st fs now e).1.currentLogFile = getLogFilePath st.config now
        ∧ prefixFileCount st.config (rotateLogsIfNeeded st fs now).2.1
            ≤ st.config.maxFiles) := by
  have hcond : ¬(st.config.enabled = false
      ∨ getLevelValue e.level < getLevelValue st.config.minLevel) := by
    rintro (h0 | h0)
    · rw [hen] at h0
      exact Bool.noConfusion h0
    · omega
  by_cases hrot : shouldRotateFile st fs = true
  · have hev : (Logger.log st fs now e).2.2
        = (FsEvent.renamed st.currentLogFile (archivePath st.config now)
            :: (cleanupOldLogs st.config
                (renameFile fs st.currentLogFile (archivePath st.config now))).2)
          ++ [FsEvent.appended (getLogFilePath st.config now) (entryBytes e)]
          ++ (if st.config.consoleOutput then consoleEvents e else []) := by
      unfold Logger.log rotateLogsIfNeeded
      rw [if_neg hcond, if_pos hrot]
    have hst : (Logger.log st fs now e).1.currentLogFile = getLogFilePath st.config now := by
      unfold Logger.log rotateLogsIfNeeded
      rw [if_neg hcond, if_pos hrot]
    have hcount : (Logger.log st fs now e).2.2.countP isRenameEv = 1 := by
      rw [hev]
      simp [List.countP_append, List.countP_cons, isRenameEv,
        cleanup_no_rename, console_if_no_rename]
    have hclean : prefixFileCount st.config (rotateLogsIfNeeded st fs now).2.1
        ≤ st.config.maxFiles := by
      have hr21 : (rotateLogsIfNeeded st fs now).2.1
          = (cleanupOldLogs st.config
              (renameFile fs st.currentLogFile (archivePath st.config now))).1 := by
        unfold rotateLogsIfNeeded
        rw [if_pos hrot]
      rw [hr21]
      exact cleanupOldLogs_count st.config _
        (renameFile_nodup fs st.currentLogFile (archivePath st.config now) hnd)
    refine ⟨by omega, ⟨fun _ => hrot, fun _ => hcount⟩, fun _ => ⟨?_, hst, hclean⟩⟩
    rw [hev]
    exact List.mem_append_left _ (List.mem_append_left _ (List.mem_cons_self _ _))
  · have hev : (Logger.log st fs now e).2.2
        = [] ++ [FsEvent.appended st.currentLogFile (entryBytes e)]
          ++ (if st.config.consoleOutput then consoleEvents e else []) := by
      unfold Logger.log rotateLogsIfNeeded
      rw [if_neg hcond, if_neg hrot]
    have hcount : (Logger.log st fs now e).2.2.countP isRenameEv = 0 := by
      rw [hev]
      simp [List.countP_append, List.countP_cons, isRenameEv, console_if_no_rename]
    refine ⟨by omega, ⟨fun h1 => absurd (hcount ▸ h1) (by omega), fun h2 => absurd h2 hrot⟩,
      fun h2 => absurd h2 hrot⟩

/-- The rotation-witness configuration: a 10-byte threshold and 2 retained
files. -/
def cfgW : LoggerConfig :=
  { DEFAULT_CONFIG with maxFileSizeBytes := 10, maxFiles := 2 }

/-- The rotation-witness logger state. -/
def stW : LoggerState :=
  { config := cfgW, currentLogFile := "app-error-0.log" }

/-- The rotation-witness directory: an oversized current file and two
archives. -/
def fsW : FsState :=
  { files := [{ name := "app-error-0.log", size := 11, birth := 3 },
              { name := "app-error-x.log", size := 5, birth := 1 },
              { name := "app-error-y.log", size := 5, birth := 2 },
              { name := "other.log", size := 5, birth := 0 }] }

/-- The rotation-witness entry. -/
def entryW : LogEntry :=
  { level := .ERROR, timestamp := "t", message := "m", category := "c" }

/-- Claim C9 witness: a write over the 10-byte threshold rotates once and
cleanup retains at most 2 matching files. -/
theorem claim_C9_witness :
    (Logger.log stW fsW 5 entryW).2.2.countP isRenameEv = 1
    ∧ shouldRotateFile stW fsW = true
    ∧ FsEvent.renamed "app-error-0.log" (archivePath cfgW 5) ∈ (Logger.log stW fsW 5 entryW).2.2
    ∧ (Logger.log stW fsW 5 entryW).1.currentLogFile = getLogFilePath cfgW 5
    ∧ prefixFileCount cfgW (rotateLogsIfNeeded stW fsW 5).2.1 ≤ cfgW.maxFiles := by
  have hrot : shouldRotateFile stW fsW = true := by decide
  have h := claim_C9_rotation stW fsW 5 entryW (by decide) (by decide) (by decide)
  obtain ⟨h1, h2, h3⟩ := h
  obtain ⟨hm, hc, hp⟩ := h3 hrot
  exact ⟨h2.mpr hrot, hrot, hm, hc, hp⟩

/-- Claim C10: the default configuration's minimum severity is WARNING, so
`Logger.info` drops every record before any I/O: the logger state and the
directory are untouched and no file or console effect occurs. -/
theorem claim_C10_info_filtered :
    DEFAULT_CONFIG.minLevel = LogLevel.WARNING
    ∧ ∀ (st : LoggerState) (fs : FsState) (now : Nat) (msg cat : String),
        st.config = DEFAULT_CONFIG →
        Logger.info st fs now msg cat = (st, fs, []) := by
  refine ⟨rfl, ?_⟩
  intro st fs now msg cat hcfg
  unfold Logger.info Logger.log
  rw [if_pos (Or.inr (by
    rw [hcfg]
    show getLevelValue LogLevel.INFO < getLevelValue LogLevel.WARNING
    decide))]

/-- Claim C10 witness: an INFO record against the default singleton logger
leaves the state untouched. -/
theorem claim_C10_witness :
    Logger.info (Logger.new 0) fsW 0 "m" "c" = (Logger.new 0, fsW, []) :=
  claim_C10_info_filtered.2 (Logger.new 0) fsW 0 "m" "c" rfl

end FastDo
